import Mathlib

/-!
Verification of `src/train/models.py` (flowEQ training models).

The file shallowly embeds the Keras model-building code over the reals:
a dense layer is an affine map given by a weight matrix and a bias vector,
activations are real functions (`relu`, `sigmoid`), and each builder is a
Lean function from its learnable parameters to the forward functions of
the encoder, decoder and composed autoencoder it constructs.  Python
exceptions are modelled with `Except String`.  The stochastic noise
consumed by `sample` is passed as an explicit argument (the code draws it
from an unseeded standard-normal source).
-/

noncomputable section

namespace FlowEQ

/-- Rectified linear unit: the Keras activation given by the string relu. -/
def relu (x : ℝ) : ℝ := max x 0

/-- Logistic sigmoid: the Keras activation given by the string sigmoid. -/
def sigmoid (x : ℝ) : ℝ := 1 / (1 + Real.exp (-x))

/-- Learnable parameters of one Keras `layers.Dense` layer mapping a vector
of width `nIn` to a vector of width `nOut`. -/
structure Dense (nIn nOut : ℕ) where
  weight : Fin nOut → Fin nIn → ℝ
  bias : Fin nOut → ℝ

/-- Forward pass of a dense layer with activation `act`:
`act (W x + b)` componentwise. -/
def Dense.fwd {nIn nOut : ℕ} (act : ℝ → ℝ) (l : Dense nIn nOut)
    (x : Fin nIn → ℝ) : Fin nOut → ℝ :=
  fun j => act (∑ i, l.weight j i * x i + l.bias j)

/-- The loss bound by `compile`, as named in the source. -/
inductive LossName
  | meanAbsoluteError
  | vaeLoss
deriving DecidableEq

/-- The optimizer bound by `compile`: `tf.keras.optimizers.Adam(lr)`,
recording the learning rate. -/
structure Adam where
  lr : ℝ

/-- The `(autoencoder, encoder, decoder)` triple a vanilla builder returns,
together with what `compile` bound to the autoencoder. -/
structure VanillaTriple (inputShape latentDim : ℕ) where
  autoencoder : (Fin inputShape → ℝ) → Fin inputShape → ℝ
  encoder : (Fin inputShape → ℝ) → Fin latentDim → ℝ
  decoder : (Fin latentDim → ℝ) → Fin inputShape → ℝ
  optimizer : Adam
  loss : LossName

/-! ### build_simple_autoencoder (lines 6-38) -/

/-- Learnable parameters allocated by `build_simple_autoencoder`:
one dense layer input→latent and one dense layer latent→input. -/
structure SimpleWeights (latentDim inputShape : ℕ) where
  encDense : Dense inputShape latentDim
  decDense : Dense latentDim inputShape

/-- Encoder of `build_simple_autoencoder`:
`z = layers.Dense(latent_dim, activation=relu)(inputs)` (line 23). -/
def simpleEncoder {latentDim inputShape : ℕ}
    (w : SimpleWeights latentDim inputShape)
    (x : Fin inputShape → ℝ) : Fin latentDim → ℝ :=
  w.encDense.fwd relu x

/-- Decoder of `build_simple_autoencoder`:
`outputs = layers.Dense(input_shape, activation=sigmoid)(latent_inputs)`
(line 25). -/
def simpleDecoder {latentDim inputShape : ℕ}
    (w : SimpleWeights latentDim inputShape)
    (z : Fin latentDim → ℝ) : Fin inputShape → ℝ :=
  w.decDense.fwd sigmoid z

/-- Composed autoencoder of `build_simple_autoencoder`:
`outputs = decoder(encoder(inputs))` (line 32). -/
def simpleAutoencoder {latentDim inputShape : ℕ}
    (w : SimpleWeights latentDim inputShape)
    (x : Fin inputShape → ℝ) : Fin inputShape → ℝ :=
  simpleDecoder w (simpleEncoder w x)

/-- `build_simple_autoencoder(latent_dim, input_shape)` (lines 6-38):
builds the two dense layers, forms encoder, decoder and the composed
autoencoder, compiles with Adam(0.001) and mean_absolute_error, and
returns the triple.  No statement can raise, so the result is always
`Except.ok`. -/
def build_simple_autoencoder (latentDim inputShape : ℕ)
    (w : SimpleWeights latentDim inputShape) :
    Except String (VanillaTriple inputShape latentDim) :=
  Except.ok
    { autoencoder := simpleAutoencoder w
      encoder := simpleEncoder w
      decoder := simpleDecoder w
      optimizer := { lr := 0.001 }
      loss := LossName.meanAbsoluteError }

/-! ### build_single_layer_autoencoder (lines 40-75) -/

/-- Learnable parameters allocated by `build_single_layer_autoencoder`.
Note: the source allocates a 256-wide decoder hidden layer
(`x = layers.Dense(256, activation=relu)(latent_inputs)`, line 61) even
though line 62 connects the output layer to `latent_inputs` directly. -/
structure SingleLayerWeights (latentDim inputShape : ℕ) where
  encHidden : Dense inputShape 256
  encLatent : Dense 256 latentDim
  decHidden : Dense latentDim 256
  decOut : Dense latentDim inputShape

/-- Encoder of `build_single_layer_autoencoder`:
256-wide relu hidden layer (line 58) then relu layer to the latent
width (line 59). -/
def singleLayerEncoder {latentDim inputShape : ℕ}
    (w : SingleLayerWeights latentDim inputShape)
    (x : Fin inputShape → ℝ) : Fin latentDim → ℝ :=
  w.encLatent.fwd relu (w.encHidden.fwd relu x)

/-- Decoder of `build_single_layer_autoencoder` exactly as the source
wires it: line 62 applies the sigmoid output layer to `latent_inputs`
itself, so the 256-wide hidden layer of line 61 is not on the path from
`latent_inputs` to `outputs`. -/
def singleLayerDecoder {latentDim inputShape : ℕ}
    (w : SingleLayerWeights latentDim inputShape)
    (z : Fin latentDim → ℝ) : Fin inputShape → ℝ :=
  w.decOut.fwd sigmoid z

/-- The decoder `build_single_layer_autoencoder` would have built had line
62 consumed the hidden activation `x` of line 61, as the spec describes:
relu hidden layer of width 256, then sigmoid layer of width
`input_shape`.  Used only to compare the source against the spec. -/
def singleLayerDecoderSpec {latentDim inputShape : ℕ}
    (w : SingleLayerWeights latentDim inputShape)
    (hiddenToOut : Dense 256 inputShape)
    (z : Fin latentDim → ℝ) : Fin inputShape → ℝ :=
  hiddenToOut.fwd sigmoid (w.decHidden.fwd relu z)

/-- Composed autoencoder of `build_single_layer_autoencoder`:
`outputs = decoder(encoder(inputs))` (line 69). -/
def singleLayerAutoencoder {latentDim inputShape : ℕ}
    (w : SingleLayerWeights latentDim inputShape)
    (x : Fin inputShape → ℝ) : Fin inputShape → ℝ :=
  singleLayerDecoder w (singleLayerEncoder w x)

/-- `build_single_layer_autoencoder(latent_dim, input_shape)`
(lines 40-75): builds the layers, forms encoder, decoder and the
composed autoencoder, compiles with Adam(0.001) and
mean_absolute_error, and returns the triple.  No statement can raise. -/
def build_single_layer_autoencoder (latentDim inputShape : ℕ)
    (w : SingleLayerWeights latentDim inputShape) :
    Except String (VanillaTriple inputShape latentDim) :=
  Except.ok
    { autoencoder := singleLayerAutoencoder w
      encoder := singleLayerEncoder w
      decoder := singleLayerDecoder w
      optimizer := { lr := 0.001 }
      loss := LossName.meanAbsoluteError }

/-! ### build_multiple_layer_autoencoder (lines 77-115) -/

/-- Learnable parameters allocated by `build_multiple_layer_autoencoder`:
an encoder funnel 13→9→6→2 then latent, and the mirrored decoder
2→6→9→13 then `input_shape`. -/
structure MultiLayerWeights (latentDim inputShape : ℕ) where
  enc13 : Dense inputShape 13
  enc9 : Dense 13 9
  enc6 : Dense 9 6
  enc2 : Dense 6 2
  encLatent : Dense 2 latentDim
  dec2 : Dense latentDim 2
  dec6 : Dense 2 6
  dec9 : Dense 6 9
  dec13 : Dense 9 13
  decOut : Dense 13 inputShape

/-- Encoder of `build_multiple_layer_autoencoder` (lines 91-96):
relu funnel 13→9→6→2, then relu layer to the latent width. -/
def multiLayerEncoder {latentDim inputShape : ℕ}
    (w : MultiLayerWeights latentDim inputShape)
    (x : Fin inputShape → ℝ) : Fin latentDim → ℝ :=
  w.encLatent.fwd relu
    (w.enc2.fwd relu (w.enc6.fwd relu (w.enc9.fwd relu (w.enc13.fwd relu x))))

/-- Decoder of `build_multiple_layer_autoencoder` (lines 97-102):
relu layers 2→6→9→13, then sigmoid layer of width `input_shape`. -/
def multiLayerDecoder {latentDim inputShape : ℕ}
    (w : MultiLayerWeights latentDim inputShape)
    (z : Fin latentDim → ℝ) : Fin inputShape → ℝ :=
  w.decOut.fwd sigmoid
    (w.dec13.fwd relu (w.dec9.fwd relu (w.dec6.fwd relu (w.dec2.fwd relu z))))

/-- Composed autoencoder of `build_multiple_layer_autoencoder`:
`outputs = decoder(encoder(inputs))` (line 109). -/
def multiLayerAutoencoder {latentDim inputShape : ℕ}
    (w : MultiLayerWeights latentDim inputShape)
    (x : Fin inputShape → ℝ) : Fin inputShape → ℝ :=
  multiLayerDecoder w (multiLayerEncoder w x)

/-- `build_multiple_layer_autoencoder(latent_dim, input_shape)`
(lines 77-115): builds encoder, decoder and the composed autoencoder,
then executes `model.compile(...)` (line 112) — but no name `model` was
ever bound in the function, so Python raises `NameError` there
unconditionally and line 115 is never reached.  The builder therefore
always returns an error and never the triple. -/
def build_multiple_layer_autoencoder (latentDim inputShape : ℕ)
    (w : MultiLayerWeights latentDim inputShape) :
    Except String (VanillaTriple inputShape latentDim) :=
  let autoencoder := multiLayerAutoencoder w
  let encoder := multiLayerEncoder w
  let decoder := multiLayerDecoder w
  -- line 112 references the unbound name `model`:
  Except.error "NameError: name model is not defined"

/-! ### sample (lines 221-228) -/

/-- `sample(args)` (lines 221-228): the reparameterization trick.  Given
`mu` and `log_sigma` of shape (B, D) — the batch size B is read from the
runtime shape of `mu`, the dimension D from its static shape — the code
draws `epsilon = K.random_normal(shape=(batch, dim), mean=0, stddev=1)`
and returns `mu + K.exp(log_sigma * 0.5) * epsilon`.  The embedding
passes the standard-normal draw `epsilon` explicitly, one independent
entry per (row, dimension) pair; the shapes are carried by the types. -/
def sample {B D : ℕ} (mu logSigma : Fin B → Fin D → ℝ)
    (epsilon : Fin B → Fin D → ℝ) : Fin B → Fin D → ℝ :=
  fun i j => mu i j + Real.exp (logSigma i j * 0.5) * epsilon i j

/-! ### Losses -/

/-- Keras `losses.mean_absolute_error` on one row of width `n`:
the mean over components of the absolute difference. -/
def meanAbsoluteError (n : ℕ) (a b : Fin n → ℝ) : ℝ :=
  (∑ i, |a i - b i|) / n

/-- The per-row KL sum appearing in each `vae_loss`:
`0.5 * K.sum(K.exp(log_sigma) + K.square(mu) - 1. - log_sigma, axis=1)`
(lines 159, 213, 266). -/
def klTerm (d : ℕ) (mu logSigma : Fin d → ℝ) : ℝ :=
  0.5 * ∑ j, (Real.exp (logSigma j) + (mu j) ^ 2 - 1 - logSigma j)

/-- `vae_loss(y_true, y_pred)` of the two variational builders
(lines 157-160 and 211-214), on one batch row.  The body reads the
build-scope tensors `inputs`, `outputs`, `mu`, `log_sigma` captured by
the closure; the formal arguments `y_true` and `y_pred` appear nowhere
in it.  Returns
`mean_absolute_error(inputs, outputs) + beta * kl_loss`, per row. -/
def vae_loss {n d : ℕ} (inputs outputs : Fin n → ℝ) (mu logSigma : Fin d → ℝ)
    (beta : ℝ) (yTrue yPred : Fin n → ℝ) : ℝ :=
  let reconstruction_loss := meanAbsoluteError n inputs outputs
  let kl_loss := klTerm d mu logSigma
  reconstruction_loss + beta * kl_loss

/-- Per-row loss vector of a build-time variational variant on a batch of
`B` rows: the closed-over `inputs` and `outputs` are batch tensors, and
`vae_loss` is their per-row combination, left unreduced. -/
def buildVaeLossRows (B n d : ℕ) (inputs outputs : Fin B → Fin n → ℝ)
    (mu logSigma : Fin B → Fin d → ℝ) (beta : ℝ)
    (yTrue yPred : Fin B → Fin n → ℝ) : Fin B → ℝ :=
  fun i => vae_loss (inputs i) (outputs i) (mu i) (logSigma i) beta
    (yTrue i) (yPred i)

/-- `vae_loss(y_true, y_pred)` of
`tune_single_layer_variational_autoencoder` (lines 264-268):
`recon = losses.mean_absolute_error(inputs, outputs)` per row,
`kl_loss = beta * 0.5 * K.sum(..., axis=1)` per row, and the return
value is `K.mean(recon + kl_loss)` — the scalar batch mean of the
combined per-row loss. -/
def tuneVaeLoss (B n d : ℕ) (inputs outputs : Fin B → Fin n → ℝ)
    (mu logSigma : Fin B → Fin d → ℝ) (beta : ℝ)
    (yTrue yPred : Fin B → Fin n → ℝ) : ℝ :=
  let recon := fun i => meanAbsoluteError n (inputs i) (outputs i)
  let kl_loss := fun i => beta * klTerm d (mu i) (logSigma i)
  (∑ i, (recon i + kl_loss i)) / B

/-! ### Variational builders (lines 117-165 and 167-219) -/

/-- The `(autoencoder, encoder, decoder)` triple a variational builder
returns.  The encoder maps a batch and the sampler noise to the triple
`[mu, log_sigma, z]` (line 147); the autoencoder feeds `encoder(inputs)[2]`
into the decoder (line 153). -/
structure VariationalTriple (inputShape latentDim : ℕ) where
  autoencoder : {B : ℕ} → (Fin B → Fin inputShape → ℝ) →
    (Fin B → Fin latentDim → ℝ) → Fin B → Fin inputShape → ℝ
  encoder : {B : ℕ} → (Fin B → Fin inputShape → ℝ) →
    (Fin B → Fin latentDim → ℝ) →
    (Fin B → Fin latentDim → ℝ) × (Fin B → Fin latentDim → ℝ) ×
      (Fin B → Fin latentDim → ℝ)
  decoder : {B : ℕ} → (Fin B → Fin latentDim → ℝ) →
    Fin B → Fin inputShape → ℝ
  optimizer : Adam
  loss : LossName
  beta : ℝ

/-- Learnable parameters allocated by
`build_single_layer_variational_autoencoder`: a 1024-wide shared hidden
layer, linear `mu` and `log_sigma` heads, and the mirrored decoder. -/
structure SingleVAEWeights (latentDim inputShape : ℕ) where
  encHidden : Dense inputShape 1024
  muHead : Dense 1024 latentDim
  sigmaHead : Dense 1024 latentDim
  decHidden : Dense latentDim 1024
  decOut : Dense 1024 inputShape

/-- Encoder of `build_single_layer_variational_autoencoder`
(lines 133-139): relu hidden layer of width 1024, two parallel linear
heads producing `mu` and `log_sigma`, and `z = sample(mu, log_sigma)`
with the noise `epsilon` made explicit. -/
def singleVAEEncoder {latentDim inputShape B : ℕ}
    (w : SingleVAEWeights latentDim inputShape)
    (x : Fin B → Fin inputShape → ℝ) (epsilon : Fin B → Fin latentDim → ℝ) :
    (Fin B → Fin latentDim → ℝ) × (Fin B → Fin latentDim → ℝ) ×
      (Fin B → Fin latentDim → ℝ) :=
  let h := fun i => w.encHidden.fwd relu (x i)
  let mu := fun i => w.muHead.fwd id (h i)
  let logSigma := fun i => w.sigmaHead.fwd id (h i)
  (mu, logSigma, sample mu logSigma epsilon)

/-- Decoder of `build_single_layer_variational_autoencoder`
(lines 142-144): relu hidden layer of width 1024, then sigmoid layer of
width `input_shape`. -/
def singleVAEDecoder {latentDim inputShape B : ℕ}
    (w : SingleVAEWeights latentDim inputShape)
    (z : Fin B → Fin latentDim → ℝ) : Fin B → Fin inputShape → ℝ :=
  fun i => w.decOut.fwd sigmoid (w.decHidden.fwd relu (z i))

/-- `build_single_layer_variational_autoencoder(latent_dim, input_shape,
beta)` (lines 117-165): builds encoder, decoder, composes
`decoder(encoder(inputs)[2])` (line 153), compiles with Adam(0.001) and
the closed-over `vae_loss`, and returns the triple.  No statement can
raise (`summary()` only prints). -/
def build_single_layer_variational_autoencoder (latentDim inputShape : ℕ)
    (beta : ℝ) (w : SingleVAEWeights latentDim inputShape) :
    Except String (VariationalTriple inputShape latentDim) :=
  Except.ok
    { autoencoder := fun x epsilon =>
        singleVAEDecoder w (singleVAEEncoder w x epsilon).2.2
      encoder := fun x epsilon => singleVAEEncoder w x epsilon
      decoder := fun z => singleVAEDecoder w z
      optimizer := { lr := 0.001 }
      loss := LossName.vaeLoss
      beta := beta }

/-- Learnable parameters allocated by
`build_multiple_layer_variational_autoencoder`: shared hidden layers of
widths 128, 64, 32, linear heads, and the mirrored decoder 32, 64, 128. -/
structure MultiVAEWeights (latentDim inputShape : ℕ) where
  enc128 : Dense inputShape 128
  enc64 : Dense 128 64
  enc32 : Dense 64 32
  muHead : Dense 32 latentDim
  sigmaHead : Dense 32 latentDim
  dec32 : Dense latentDim 32
  dec64 : Dense 32 64
  dec128 : Dense 64 128
  decOut : Dense 128 inputShape

/-- Encoder of `build_multiple_layer_variational_autoencoder`
(lines 183-191): relu layers 128→64→32, two parallel linear heads, and
`z = sample(mu, log_sigma)` with explicit noise. -/
def multiVAEEncoder {latentDim inputShape B : ℕ}
    (w : MultiVAEWeights latentDim inputShape)
    (x : Fin B → Fin inputShape → ℝ) (epsilon : Fin B → Fin latentDim → ℝ) :
    (Fin B → Fin latentDim → ℝ) × (Fin B → Fin latentDim → ℝ) ×
      (Fin B → Fin latentDim → ℝ) :=
  let h := fun i => w.enc32.fwd relu (w.enc64.fwd relu (w.enc128.fwd relu (x i)))
  let mu := fun i => w.muHead.fwd id (h i)
  let logSigma := fun i => w.sigmaHead.fwd id (h i)
  (mu, logSigma, sample mu logSigma epsilon)

/-- Decoder of `build_multiple_layer_variational_autoencoder`
(lines 194-198): relu layers 32→64→128 then sigmoid layer of width
`input_shape`. -/
def multiVAEDecoder {latentDim inputShape B : ℕ}
    (w : MultiVAEWeights latentDim inputShape)
    (z : Fin B → Fin latentDim → ℝ) : Fin B → Fin inputShape → ℝ :=
  fun i => w.decOut.fwd sigmoid
    (w.dec128.fwd relu (w.dec64.fwd relu (w.dec32.fwd relu (z i))))

/-- `build_multiple_layer_variational_autoencoder(latent_dim, input_shape,
beta)` (lines 167-219): builds encoder, decoder, composes
`decoder(encoder(inputs)[2])` (line 207), compiles with Adam(0.001) and
the closed-over `vae_loss`, and returns the triple.  No statement can
raise. -/
def build_multiple_layer_variational_autoencoder (latentDim inputShape : ℕ)
    (beta : ℝ) (w : MultiVAEWeights latentDim inputShape) :
    Except String (VariationalTriple inputShape latentDim) :=
  Except.ok
    { autoencoder := fun x epsilon =>
        multiVAEDecoder w (multiVAEEncoder w x epsilon).2.2
      encoder := fun x epsilon => multiVAEEncoder w x epsilon
      decoder := fun z => multiVAEDecoder w z
      optimizer := { lr := 0.001 }
      loss := LossName.vaeLoss
      beta := beta }

/-! ### tune_single_layer_variational_autoencoder (lines 230-279) -/

/-- The recognized keys of the `params` dict passed to the tuning
function: hidden widths for encoder and decoder, the activation applied
to those hidden layers (a Keras activation, modelled as the real
function it names), and the number of training epochs. -/
structure TuneParams where
  encoder_units : ℕ
  decoder_units : ℕ
  activation : ℝ → ℝ
  epochs : ℕ

/-- Learnable parameters allocated by the tuning builder, with the hidden
widths taken from `params` and the latent width 2 and input width 13
fixed by lines 236-237. -/
structure TuneWeights (eu du : ℕ) where
  encHidden : Dense 13 eu
  muHead : Dense eu 2
  sigmaHead : Dense eu 2
  decHidden : Dense 2 du
  decOut : Dense du 13

/-- The keyword arguments of the `autoencoder.fit` call on
lines 272-277. -/
structure FitCall (α : Type) where
  x : α
  y : α
  shuffle : Bool
  validationData : α × α
  batchSize : ℕ
  epochs : ℕ
  verbose : Bool

/-- Everything `tune_single_layer_variational_autoencoder` hands to the
training framework: the fixed model constants, the compiled model's
forward function and loss, and the `fit` call.  The history and trained
artifact the framework returns are a function of this record together
with the initial weights and the (unseeded) random source. -/
structure TuneRun (α : Type) where
  latent_dim : ℕ
  input_shape : ℕ
  beta : ℝ
  autoencoder : {B : ℕ} → (Fin B → Fin 13 → ℝ) → (Fin B → Fin 2 → ℝ) →
    Fin B → Fin 13 → ℝ
  loss : {B : ℕ} → (Fin B → Fin 13 → ℝ) → (Fin B → Fin 13 → ℝ) →
    (Fin B → Fin 2 → ℝ) → (Fin B → Fin 2 → ℝ) →
    (Fin B → Fin 13 → ℝ) → (Fin B → Fin 13 → ℝ) → ℝ
  optimizer : Adam
  fit : FitCall α

/-- `tune_single_layer_variational_autoencoder(x_train, y_train, x_val,
y_val, params)` (lines 230-279).  Lines 236-239 fix `latent_dim = 2`,
`input_shape = 13`, `beta = 0.001`.  Lines 242-253 build the
single-hidden-layer variational model with the hidden widths and
activation from `params`; line 270 compiles with Adam(0.001) and the
mean-reducing `vae_loss`; lines 272-277 call
`fit(x_train, x_train, shuffle=True, validation_data=(x_val, x_val),
batch_size=8, epochs=params.epochs, verbose=False)`.  Note the
arguments `y_train` and `y_val` appear nowhere after the signature. -/
def tune_single_layer_variational_autoencoder {α : Type}
    (x_train y_train x_val y_val : α) (params : TuneParams)
    (w : TuneWeights params.encoder_units params.decoder_units) :
    TuneRun α :=
  let latent_dim := 2
  let input_shape := 13
  let beta : ℝ := 0.001
  let encoder := fun {B : ℕ} (x : Fin B → Fin 13 → ℝ)
      (epsilon : Fin B → Fin 2 → ℝ) =>
    let h := fun i => w.encHidden.fwd params.activation (x i)
    let mu := fun i => w.muHead.fwd id (h i)
    let logSigma := fun i => w.sigmaHead.fwd id (h i)
    (mu, logSigma, sample mu logSigma epsilon)
  let decoder := fun {B : ℕ} (z : Fin B → Fin 2 → ℝ) (i : Fin B) =>
    w.decOut.fwd sigmoid (w.decHidden.fwd params.activation (z i))
  { latent_dim := latent_dim
    input_shape := input_shape
    beta := beta
    autoencoder := fun x epsilon => decoder (encoder x epsilon).2.2
    loss := fun inputs outputs mu logSigma yTrue yPred =>
      tuneVaeLoss _ input_shape latent_dim inputs outputs mu logSigma beta
        yTrue yPred
    optimizer := { lr := 0.001 }
    fit :=
      { x := x_train
        y := x_train
        shuffle := true
        validationData := (x_val, x_val)
        batchSize := 8
        epochs := params.epochs
        verbose := false } }

/-! ### Helper lemmas -/

/-- A relu-activated dense layer never outputs a negative component. -/
theorem dense_relu_nonneg {nIn nOut : ℕ} (l : Dense nIn nOut)
    (x : Fin nIn → ℝ) (j : Fin nOut) : 0 ≤ l.fwd relu x j :=
  le_max_right _ _

/-! ### Claim theorems -/

/-- C3: for the variational builders, `vae_loss` applied to any formal
arguments `y_true`, `y_pred` equals the per-row mean absolute error
between the closed-over `inputs` and `outputs` plus `beta` times
`0.5 * Σ_j (exp log_sigma_j + mu_j^2 - 1 - log_sigma_j)`, and its value
is the same for any two choices of `y_true`, `y_pred` — the true targets
are the closed-over build-scope tensors, not the arguments. -/
theorem vaeLoss_closes_over_build_scope :
    ∀ (n d : ℕ) (inputs outputs : Fin n → ℝ) (mu logSigma : Fin d → ℝ)
      (beta : ℝ) (y1 p1 y2 p2 : Fin n → ℝ),
      vae_loss inputs outputs mu logSigma beta y1 p1 =
        meanAbsoluteError n inputs outputs +
          beta * (0.5 * ∑ j, (Real.exp (logSigma j) + (mu j) ^ 2 - 1 -
            logSigma j)) ∧
      vae_loss inputs outputs mu logSigma beta y1 p1 =
        vae_loss inputs outputs mu logSigma beta y2 p2 :=
  fun _ _ _ _ _ _ _ _ _ _ _ => ⟨rfl, rfl⟩

/-- C4: for every `mean` and `log_variance` of shape (B, D) and every
standard-normal draw `epsilon` with one independent entry per
(row, dimension) pair, `sample` returns
`mean + exp(0.5 * log_variance) * epsilon` elementwise; the result has
shape (B, D), carried by its type. -/
theorem sample_reparameterizes :
    ∀ (B D : ℕ) (mu logSigma epsilon : Fin B → Fin D → ℝ)
      (i : Fin B) (j : Fin D),
      sample mu logSigma epsilon i j =
        mu i j + Real.exp (0.5 * logSigma i j) * epsilon i j := by
  intro B D mu logSigma epsilon i j
  simp [sample, mul_comm]

/-- C6: for each vanilla variant — simple, single-hidden and
multi-layer — and for every choice of learnable parameters and every
input, the composed autoencoder equals the decoder applied to the
encoder's output, exactly: both sides read the same shared parameter
record `w` and perform the same computation. -/
theorem vanilla_autoencoder_is_decoder_of_encoder :
    (∀ (ld iw : ℕ) (w : SimpleWeights ld iw) (x : Fin iw → ℝ),
      simpleAutoencoder w x = simpleDecoder w (simpleEncoder w x)) ∧
    (∀ (ld iw : ℕ) (w : SingleLayerWeights ld iw) (x : Fin iw → ℝ),
      singleLayerAutoencoder w x =
        singleLayerDecoder w (singleLayerEncoder w x)) ∧
    (∀ (ld iw : ℕ) (w : MultiLayerWeights ld iw) (x : Fin iw → ℝ),
      multiLayerAutoencoder w x =
        multiLayerDecoder w (multiLayerEncoder w x)) :=
  ⟨fun _ _ _ _ => rfl, fun _ _ _ _ => rfl, fun _ _ _ _ => rfl⟩

/-- C7: every vanilla-family encoder — simple, single-hidden and
multi-layer — ends in a relu-activated dense layer, so every component
of the latent vector it returns is non-negative, for every choice of
learnable parameters and every input. -/
theorem vanilla_encoder_latent_nonneg :
    (∀ (ld iw : ℕ) (w : SimpleWeights ld iw) (x : Fin iw → ℝ) (j : Fin ld),
      0 ≤ simpleEncoder w x j) ∧
    (∀ (ld iw : ℕ) (w : SingleLayerWeights ld iw) (x : Fin iw → ℝ)
      (j : Fin ld), 0 ≤ singleLayerEncoder w x j) ∧
    (∀ (ld iw : ℕ) (w : MultiLayerWeights ld iw) (x : Fin iw → ℝ)
      (j : Fin ld), 0 ≤ multiLayerEncoder w x j) :=
  ⟨fun _ _ w x j => dense_relu_nonneg w.encDense x j,
   fun _ _ w x j => dense_relu_nonneg w.encLatent _ j,
   fun _ _ w x j => dense_relu_nonneg w.encLatent _ j⟩

/-- C9: `tune_single_layer_variational_autoencoder` fixes latent
dimension 2, input width 13 and beta 0.001 whatever `params` holds, and
its `fit` call uses batch size 8, shuffling, the validation split
`(x_val, x_val)` evaluated every pass, non-verbose, for exactly
`params.epochs` epochs. -/
theorem tune_fixed_constants_and_fit_call :
    ∀ (α : Type) (x_train y_train x_val y_val : α) (params : TuneParams)
      (w : TuneWeights params.encoder_units params.decoder_units),
      (tune_single_layer_variational_autoencoder x_train y_train x_val
        y_val params w).latent_dim = 2 ∧
      (tune_single_layer_variational_autoencoder x_train y_train x_val
        y_val params w).input_shape = 13 ∧
      (tune_single_layer_variational_autoencoder x_train y_train x_val
        y_val params w).beta = 0.001 ∧
      (tune_single_layer_variational_autoencoder x_train y_train x_val
        y_val params w).fit.batchSize = 8 ∧
      (tune_single_layer_variational_autoencoder x_train y_train x_val
        y_val params w).fit.shuffle = true ∧
      (tune_single_layer_variational_autoencoder x_train y_train x_val
        y_val params w).fit.validationData = (x_val, x_val) ∧
      (tune_single_layer_variational_autoencoder x_train y_train x_val
        y_val params w).fit.verbose = false ∧
      (tune_single_layer_variational_autoencoder x_train y_train x_val
        y_val params w).fit.epochs = params.epochs :=
  fun _ _ _ _ _ _ _ => ⟨rfl, rfl, rfl, rfl, rfl, rfl, rfl, rfl⟩

/-- C10: the run assembled by `tune_single_layer_variational_autoencoder`
— the model, the compiled loss and the entire `fit` call — is identical
for any two choices of `y_train` and `y_val`, holding `x_train`,
`x_val`, `params` and the initial weights fixed: training and validation
both use the input arrays as their own targets, and the `y` arguments
are never read. -/
theorem tune_ignores_y_arguments :
    ∀ (α : Type) (x_train x_val y_train y_val yt2 yv2 : α)
      (params : TuneParams)
      (w : TuneWeights params.encoder_units params.decoder_units),
      tune_single_layer_variational_autoencoder x_train y_train x_val
        y_val params w =
      tune_single_layer_variational_autoencoder x_train yt2 x_val
        yv2 params w :=
  fun _ _ _ _ _ _ _ _ _ => rfl

/-- C1: in `build_single_layer_autoencoder` the decoder's output layer is
wired to `latent_inputs` directly (line 62), not to the 256-unit relu
activation of line 61, so the decoder computes a single sigmoid dense
map of the latent vector and its output is unchanged under any
replacement of the 256-unit hidden layer's weights — contradicting the
claim that the decoder applies the 256-unit hidden layer and that its
output depends on it. -/
theorem singleLayerDecoder_skips_hidden_layer :
    (∀ (ld iw : ℕ) (w : SingleLayerWeights ld iw) (z : Fin ld → ℝ)
      (j : Fin iw),
      singleLayerDecoder w z j =
        sigmoid (∑ i, w.decOut.weight j i * z i + w.decOut.bias j)) ∧
    (∀ (ld iw : ℕ) (w : SingleLayerWeights ld iw) (h : Dense ld 256),
      singleLayerDecoder { w with decHidden := h } = singleLayerDecoder w) :=
  ⟨fun _ _ _ _ _ => rfl, fun _ _ _ _ => rfl⟩

/-- C2: of the five builder functions in the source, four construct
their triple, compile the artifact they just built and return
`(autoencoder, encoder, decoder)`; `build_multiple_layer_autoencoder`
constructs its triple but then executes `model.compile(...)` (line 112)
on the never-bound name `model`, so it raises a `NameError` and never
returns — for every argument choice. -/
theorem builders_return_except_multi_layer_vanilla :
    (∀ (ld iw : ℕ) (w : SimpleWeights ld iw),
      (build_simple_autoencoder ld iw w).isOk = true) ∧
    (∀ (ld iw : ℕ) (w : SingleLayerWeights ld iw),
      (build_single_layer_autoencoder ld iw w).isOk = true) ∧
    (∀ (ld iw : ℕ) (beta : ℝ) (w : SingleVAEWeights ld iw),
      (build_single_layer_variational_autoencoder ld iw beta w).isOk =
        true) ∧
    (∀ (ld iw : ℕ) (beta : ℝ) (w : MultiVAEWeights ld iw),
      (build_multiple_layer_variational_autoencoder ld iw beta w).isOk =
        true) ∧
    (∀ (ld iw : ℕ) (w : MultiLayerWeights ld iw),
      build_multiple_layer_autoencoder ld iw w =
        Except.error "NameError: name model is not defined") :=
  ⟨fun _ _ _ => rfl, fun _ _ _ => rfl, fun _ _ _ _ => rfl,
   fun _ _ _ _ => rfl, fun _ _ _ => rfl⟩

/-! ### Concrete batch for the C5 reduction-policy comparison -/

/-- A batch of two rows of width 1, all zero: the closed-over inputs. -/
def exInputs : Fin 2 → Fin 1 → ℝ := fun _ _ => 0

/-- Reconstructions for the same batch: row 0 reconstructs exactly, row 1
misses by 1. -/
def exOutputs : Fin 2 → Fin 1 → ℝ := fun i _ => if i = 0 then 0 else 1

/-- Zero distribution parameters for the same batch (so the KL term
vanishes and only the reconstruction terms differ across rows). -/
def exZeroParams : Fin 2 → Fin 1 → ℝ := fun _ _ => 0

/-- C5: the tunable variant's loss is the scalar batch mean of the
combined per-row loss — it always equals the sum of the build-time
per-row losses divided by the batch size — while the build-time
variational variants return the per-row vector unreduced; and on a
concrete batch of size 2 (rows with reconstruction errors 0 and 1, zero
distribution parameters, beta = 1) the per-row vector at row 0 differs
from the scalar mean, so the two reduction policies give numerically
different objectives. -/
theorem tune_loss_is_batch_mean_of_row_losses :
    (∀ (B n d : ℕ) (inputs outputs : Fin B → Fin n → ℝ)
      (mu logSigma : Fin B → Fin d → ℝ) (beta : ℝ)
      (yT yP : Fin B → Fin n → ℝ),
      tuneVaeLoss B n d inputs outputs mu logSigma beta yT yP =
        (∑ i, buildVaeLossRows B n d inputs outputs mu logSigma beta yT yP
          i) / B) ∧
    buildVaeLossRows 2 1 1 exInputs exOutputs exZeroParams exZeroParams 1
        exInputs exInputs 0 ≠
      tuneVaeLoss 2 1 1 exInputs exOutputs exZeroParams exZeroParams 1
        exInputs exInputs := by
  constructor
  · intro B n d inputs outputs mu logSigma beta yT yP
    rfl
  · simp only [buildVaeLossRows, tuneVaeLoss, vae_loss, meanAbsoluteError,
      klTerm, exInputs, exOutputs, exZeroParams, Fin.sum_univ_two,
      Fin.sum_univ_one, Real.exp_zero]
    norm_num

/-- The single KL summand `exp s + m^2 - 1 - s` is zero exactly when both
`m = 0` and `s = 0`. -/
theorem klSummand_eq_zero_iff (m s : ℝ) :
    Real.exp s + m ^ 2 - 1 - s = 0 ↔ m = 0 ∧ s = 0 := by
  constructor
  · intro h
    have hexp : s + 1 ≤ Real.exp s := Real.add_one_le_exp s
    have hm2 : m ^ 2 = 0 := by nlinarith [sq_nonneg m]
    have hm : m = 0 := by
      have h2 : (2 : ℕ) ≠ 0 := by norm_num
      exact (pow_eq_zero_iff h2).mp hm2
    refine ⟨hm, ?_⟩
    by_contra hne
    have hlt := Real.add_one_lt_exp hne
    nlinarith
  · rintro ⟨hm, hs⟩
    simp [hm, hs, Real.exp_zero]

/-- The per-row KL term is zero exactly when every component of `mu` and
of `log_sigma` is zero. -/
theorem klTerm_eq_zero_iff (d : ℕ) (mu logSigma : Fin d → ℝ) :
    klTerm d mu logSigma = 0 ↔ ∀ j, mu j = 0 ∧ logSigma j = 0 := by
  have hnn : ∀ j ∈ Finset.univ,
      (0 : ℝ) ≤ Real.exp (logSigma j) + (mu j) ^ 2 - 1 - logSigma j := by
    intro j _
    have hexp := Real.add_one_le_exp (logSigma j)
    nlinarith [sq_nonneg (mu j)]
  unfold klTerm
  constructor
  · intro h
    have hsum : ∑ j, (Real.exp (logSigma j) + (mu j) ^ 2 - 1 -
        logSigma j) = 0 := by
      rcases mul_eq_zero.mp h with h05 | hsum
      · norm_num at h05
      · exact hsum
    intro j
    exact (klSummand_eq_zero_iff (mu j) (logSigma j)).mp
      ((Finset.sum_eq_zero_iff_of_nonneg hnn).mp hsum j (Finset.mem_univ j))
  · intro h
    rw [Finset.sum_eq_zero, mul_zero]
    intro j _
    exact (klSummand_eq_zero_iff (mu j) (logSigma j)).mpr (h j)

/-- C8: with `beta = 0` the variational loss equals the reconstruction
loss alone, for every input and every choice of the formal arguments;
and the per-row KL term is zero exactly when (if and only if) every
component of `mean` and of `log_variance` is zero. -/
theorem vaeLoss_beta_zero_and_kl_zero_iff :
    (∀ (n d : ℕ) (inputs outputs : Fin n → ℝ) (mu logSigma : Fin d → ℝ)
      (yT yP : Fin n → ℝ),
      vae_loss inputs outputs mu logSigma 0 yT yP =
        meanAbsoluteError n inputs outputs) ∧
    (∀ (d : ℕ) (mu logSigma : Fin d → ℝ),
      klTerm d mu logSigma = 0 ↔ ∀ j, mu j = 0 ∧ logSigma j = 0) := by
  constructor
  · intro n d inputs outputs mu logSigma yT yP
    simp [vae_loss]
  · exact klTerm_eq_zero_iff

end FlowEQ
